import Mathlib

/-!
Shallow embedding of the `aom-rs` wrapper (src/decoder.rs, src/encoder.rs),
a safe session layer over the libaom C ABI.

Modelling conventions:
* Native calls are nondeterministic oracles; each wrapper operation takes the
  native result code (and, for drain calls, the native record) as an explicit
  argument and we quantify over it.
* Raw pointers are modelled as natural numbers, with `0` playing the role of
  the null pointer.  Native-owned byte memory is a function `Nat → Nat`
  (address to byte value).
* A Rust panic (`panic!`, `unimplemented!`, `Option::unwrap` on `None`) does
  not return; fallible wrapper paths are embedded in `Except WrapperPanic`.
* `Box::into_raw` / `Box::from_raw` ownership transfers are modelled by an
  explicit heap of live boxed allocations plus a trace of box events, so
  leak/release behaviour is observable.
* Machine-integer casts (`usize as u32`, `usize as i32`, `i32 as usize`) are
  modelled with explicit `% 2^w` arithmetic.
-/

namespace AomRs

/-! ### Native ABI constants (from the libaom headers used by the ffi crate) -/

/-- Result code `AOM_CODEC_OK` of `aom_codec_err_t`. -/
def AOM_CODEC_OK : Nat := 0

/-- Native result codes `aom_codec_err_t`, carried verbatim by the wrapper. -/
abbrev CodecErr := Nat

/-- Image format tag `AOM_IMG_FMT_I420` (`AOM_IMG_FMT_PLANAR | 2` = 0x102). -/
def AOM_IMG_FMT_I420 : Nat := 258

/-- Frame-packet flag bit `AOM_FRAME_IS_KEY`. -/
def AOM_FRAME_IS_KEY : Nat := 1

/-- Output-record discriminant `AOM_CODEC_CX_FRAME_PKT`. -/
def AOM_CODEC_CX_FRAME_PKT : Nat := 0

/-- Output-record discriminant `AOM_CODEC_STATS_PKT`. -/
def AOM_CODEC_STATS_PKT : Nat := 1

/-- Output-record discriminant `AOM_CODEC_FPMB_STATS_PKT`. -/
def AOM_CODEC_FPMB_STATS_PKT : Nat := 2

/-- Output-record discriminant `AOM_CODEC_PSNR_PKT`. -/
def AOM_CODEC_PSNR_PKT : Nat := 3

/-- Output-record discriminant `AOM_CODEC_CUSTOM_PKT`. -/
def AOM_CODEC_CUSTOM_PKT : Nat := 256

/-! ### Integer casts -/

/-- Rust cast `usize as u32`: truncation modulo `2^32`. -/
def u32ofUsize (n : Nat) : Nat := n % 2 ^ 32

/-- Rust cast `usize as i32`: truncate to 32 bits, reinterpret as signed. -/
def i32ofUsize (n : Nat) : Int :=
  let m : Nat := n % 2 ^ 32
  if m < 2 ^ 31 then (m : Int) else (m : Int) - 2 ^ 32

/-- Rust cast `i32 as usize` (64-bit target): sign-extend then reinterpret. -/
def usizeOfI32 (i : Int) : Nat := (i % (2 ^ 64 : Int)).toNat

/-! ### Rust panics -/

/-- The wrapper's abort paths.  `unsupportedFormat` is the
`panic!`/`unimplemented!` on a pixel format other than planar 4:2:0 8-bit
(the spec's `UnsupportedFormat` condition); `unknownPacketKind` is the
`panic!` on an unrecognized output-record discriminant (the spec's
`UnknownPacketKind`); `unwrapNone` is `Option::unwrap` applied to `None`. -/
inductive WrapperPanic where
  | unsupportedFormat
  | unknownPacketKind
  | unwrapNone
deriving DecidableEq, Repr

/-! ### Host-side pixel format and frame model (the `data` crate surface the
wrapper actually touches) -/

/-- Host pixel-format descriptor (`data::pixel::Formaton`).  The wrapper only
ever compares a format against `YUV420`; other formats are kept abstract as a
tag. -/
inductive Formaton where
  | yuv420
  | other (tag : Nat)
deriving DecidableEq, Repr

/-- Picture type of a decoded frame (`data::frame::PictureType`); the decoder
always produces `UNKNOWN`. -/
inductive PictureType where
  | unknown
  | i
  | p
  | b
deriving DecidableEq, Repr

/-- Host video descriptor (`data::frame::VideoInfo`). -/
structure VideoInfo where
  pic_type : PictureType
  width : Nat
  height : Nat
  format : Formaton
deriving DecidableEq, Repr

/-- Media kind of a frame; the encoder only populates the native image from
`MediaKind::Video`. -/
inductive MediaKind where
  | video (v : VideoInfo)
  | audio
deriving DecidableEq, Repr

/-- One plane of a frame buffer, as the wrapper observes it through the
buffer capability: the address of its owned pixel data
(`as_slice(i).unwrap().as_ptr()`) and its line size (`linesize(i).unwrap()`). -/
structure Plane where
  addr : Nat
  linesize : Nat
deriving DecidableEq, Repr

/-- Timing info (`data::timeinfo::TimeInfo`); the wrapper reads and writes
only the `pts` field. -/
structure TimeInfo where
  pts : Option Int
deriving DecidableEq, Repr

/-- Host frame (`data::frame::Frame`): media kind, plane buffers, timing. -/
structure Frame where
  kind : MediaKind
  buf : List Plane
  t : TimeInfo
deriving DecidableEq, Repr

/-! ### Native image descriptor -/

/-- Native decoded-image record `aom_image_t` as read by the decoder:
format tag, display size, plane pointers, strides, and the opaque user
pointer.  Plane and stride arrays are fixed-size in C; they are modelled as
total maps indexed by plane number. -/
structure AomImageT where
  fmt : Nat
  d_w : Nat
  d_h : Nat
  planes : Nat → Nat
  stride : Nat → Int
  user_priv : Nat

/-- Native image descriptor `aom_image` as written by the encoder
(`mem::zeroed` start): format tag, bit depth, bits per sample, chroma
shifts, display size, plane pointers and strides. -/
structure AomImage where
  fmt : Nat
  bit_depth : Nat
  bps : Nat
  x_chroma_shift : Nat
  y_chroma_shift : Nat
  d_w : Nat
  d_h : Nat
  planes : Nat → Nat
  stride : Nat → Int

/-- The all-zero `aom_image` produced by `mem::zeroed()`. -/
def zeroedAomImage : AomImage :=
  { fmt := 0, bit_depth := 0, bps := 0, x_chroma_shift := 0,
    y_chroma_shift := 0, d_w := 0, d_h := 0,
    planes := fun _ => 0, stride := fun _ => 0 }

/-! ### Decoder-side buffer marshalling (`frame_from_img`) -/

/-- Embedding of decoder.rs `frame_from_img`: match on the native format tag;
only `AOM_IMG_FMT_I420` maps to `YUV420`, anything else hits
`panic!("TODO: support more pixel formats")`.  On the supported format a
default frame is allocated for the `VideoInfo` and the native planes are
copied into it by `copy_from_raw_parts`; the freshly allocated owned planes
are supplied by the allocator oracle `allocPlanes`. -/
def frame_from_img (img : AomImageT) (allocPlanes : List Plane) :
    Except WrapperPanic Frame :=
  if img.fmt = AOM_IMG_FMT_I420 then
    Except.ok
      { kind := MediaKind.video
          { pic_type := PictureType.unknown,
            width := img.d_w,
            height := img.d_h,
            format := Formaton.yuv420 },
        buf := allocPlanes,
        t := { pts := none } }
  else
    Except.error WrapperPanic.unsupportedFormat

/-! ### Encoder-side buffer marshalling (`map_formaton`, `img_from_frame`) -/

/-- Embedding of encoder.rs `map_formaton`: if the host format equals
`YUV420` set the native tag to `AOM_IMG_FMT_I420`, otherwise
`unimplemented!()` (no other field is written before the abort); then set
bit depth 8, bits-per-sample 12, chroma shifts 1/1. -/
def map_formaton (img : AomImage) (fmt : Formaton) :
    Except WrapperPanic AomImage :=
  if fmt = Formaton.yuv420 then
    Except.ok
      { img with fmt := AOM_IMG_FMT_I420, bit_depth := 8, bps := 12,
                 x_chroma_shift := 1, y_chroma_shift := 1 }
  else
    Except.error WrapperPanic.unsupportedFormat

/-- Write plane `i`'s data pointer and stride into the native descriptor:
`img.planes[i] = s.as_ptr(); img.stride[i] = linesize as i32`. -/
def setPlane (img : AomImage) (i : Nat) (p : Plane) : AomImage :=
  { img with
      planes := fun j => if j = i then p.addr else img.planes j,
      stride := fun j => if j = i then i32ofUsize p.linesize else img.stride j }

/-- The plane-population loop of `img_from_frame`:
`for i in 0..frame.buf.count()` writing `planes[i]` and `stride[i]`,
starting at index `base`.  (The native arrays are fixed-size; the loop is
only exercised with the three planes of the supported 4:2:0 format.) -/
def populatePlanes : AomImage → Nat → List Plane → AomImage
  | img, _, [] => img
  | img, base, p :: ps => populatePlanes (setPlane img base p) (base + 1) ps

/-- Embedding of encoder.rs `img_from_frame`: start from `mem::zeroed()`;
when the frame is video, run `map_formaton` (which aborts on an unsupported
format) and record the width and height (`as u32`); then populate the plane
pointer and stride arrays from the frame's buffers. -/
def img_from_frame (frame : Frame) : Except WrapperPanic AomImage :=
  let img0 := zeroedAomImage
  match frame.kind with
  | MediaKind.video v =>
      match map_formaton img0 v.format with
      | Except.error e => Except.error e
      | Except.ok i =>
          Except.ok (populatePlanes
            { i with d_w := u32ofUsize v.width, d_h := u32ofUsize v.height }
            0 frame.buf)
  | MediaKind.audio => Except.ok (populatePlanes img0 0 frame.buf)

/-! ### Native output records and the packet marshaller -/

/-- Native fixed buffer `aom_fixed_buf_t`: a pointer into native memory and a
size in bytes. -/
structure AomFixedBuf where
  buf : Nat
  sz : Nat
deriving DecidableEq, Repr

/-- Frame member of the `aom_codec_cx_pkt` data union: payload pointer and
size, presentation timestamp, and flags word. -/
structure FramePktData where
  buf : Nat
  sz : Nat
  pts : Int
  flags : Nat
deriving DecidableEq, Repr

/-- PSNR member of the `aom_codec_cx_pkt` data union: per-channel sample
counts (`u32`), sums of squared error (`u64`) and PSNR values (`f64`).  The
wrapper only moves the `f64` values, never computes with them, so they are
kept as an uninterpreted bit pattern. -/
structure PsnrPktData where
  samples : Fin 4 → Nat
  sse : Fin 4 → Nat
  psnr : Fin 4 → Int

/-- Data union of `aom_codec_cx_pkt`.  A C union is readable through any of
its members; the wrapper only ever reads the member selected by `kind`, so
the union is modelled as a record of all members. -/
structure CxPktData where
  frame : FramePktData
  twopass_stats : AomFixedBuf
  firstpass_mb_stats : AomFixedBuf
  psnr : PsnrPktData
  raw : AomFixedBuf

/-- Native output record `aom_codec_cx_pkt`: discriminant plus data union. -/
structure AomCodecCxPkt where
  kind : Nat
  data : CxPktData

/-- Host PSNR record (encoder.rs `PSNR`). -/
structure PSNR where
  samples : Fin 4 → Nat
  sse : Fin 4 → Nat
  psnr : Fin 4 → Int

/-- Host compressed packet (`data::packet::Packet` surface used by the
wrapper): owned byte payload, timing, key-frame flag. -/
structure Packet where
  data : List Nat
  t : TimeInfo
  is_key : Bool

/-- Result of `Packet::with_capacity(sz)`: empty data, default timing, not a
key frame. -/
def Packet.with_capacity (_sz : Nat) : Packet :=
  { data := [], t := { pts := none }, is_key := false }

/-- Host tagged output (encoder.rs `AOMPacket`). -/
inductive AOMPacket where
  | Packet (p : Packet)
  | Stats (b : List Nat)
  | MBStats (b : List Nat)
  | PSNR (p : PSNR)
  | Custom (b : List Nat)

/-- Embedding of encoder.rs `to_buffer`: copy exactly `buf.sz` bytes from
native memory starting at `buf.buf` into a fresh owned vector. -/
def to_buffer (mem : Nat → Nat) (b : AomFixedBuf) : List Nat :=
  (List.range b.sz).map fun i => mem (b.buf + i)

/-- Embedding of encoder.rs `AOMPacket::new`: dispatch on the native record's
discriminant; the frame branch copies `sz` payload bytes into a
`Packet::with_capacity` buffer, sets `pts` and the key-frame flag; the stats,
macroblock-stats and custom branches copy their blob through `to_buffer`; the
PSNR branch copies the three field arrays; any other discriminant hits
`panic!("No packet defined")`. -/
def AOMPacket.new (mem : Nat → Nat) (pkt : AomCodecCxPkt) :
    Except WrapperPanic AOMPacket :=
  if pkt.kind = AOM_CODEC_CX_FRAME_PKT then
    let f := pkt.data.frame
    let p := Packet.with_capacity f.sz
    let p := { p with data := (List.range f.sz).map fun i => mem (f.buf + i) }
    let p := { p with t := { p.t with pts := some f.pts } }
    let p := { p with is_key := Nat.land f.flags AOM_FRAME_IS_KEY != 0 }
    Except.ok (AOMPacket.Packet p)
  else if pkt.kind = AOM_CODEC_STATS_PKT then
    Except.ok (AOMPacket.Stats (to_buffer mem pkt.data.twopass_stats))
  else if pkt.kind = AOM_CODEC_FPMB_STATS_PKT then
    Except.ok (AOMPacket.MBStats (to_buffer mem pkt.data.firstpass_mb_stats))
  else if pkt.kind = AOM_CODEC_PSNR_PKT then
    let p := pkt.data.psnr
    Except.ok (AOMPacket.PSNR
      { samples := p.samples, sse := p.sse, psnr := p.psnr })
  else if pkt.kind = AOM_CODEC_CUSTOM_PKT then
    Except.ok (AOMPacket.Custom (to_buffer mem pkt.data.raw))
  else
    Except.error WrapperPanic.unknownPacketKind

/-! ### Boxed user data: heap of live allocations and ownership events -/

/-- Live boxed allocations created by `Box::into_raw`.  `next` is the next
fresh address the allocator hands out (never the null address in a real
allocator); `contents` maps an address to the boxed value living there. -/
structure Heap (T : Type) where
  next : Nat
  contents : Nat → Option T

/-- Result of `Box::into_raw(Box::new v)`: the box's address, and the heap
extended with the new live allocation. -/
def Heap.intoRaw {T : Type} (h : Heap T) (v : T) : Nat × Heap T :=
  (h.next,
   { next := h.next + 1,
     contents := fun a => if a = h.next then some v else h.contents a })

/-- Effect of `let _ = Box::from_raw(p)`: the reconstructed box is dropped at
once, so the allocation at `p` is no longer live.  (For `p` null or dangling
this is library-level undefined behaviour in Rust; the model just records the
release.) -/
def Heap.fromRawDrop {T : Type} (h : Heap T) (p : Nat) : Heap T :=
  { h with contents := fun a => if a = p then none else h.contents a }

/-- Observable box-ownership events of one wrapper call. -/
inductive BoxEvent where
  | intoRaw (addr : Nat)
  | fromRawDrop (addr : Nat)
deriving DecidableEq, Repr

/-! ### Decoder session -/

/-- Decoder session state (`AV1Decoder`): the opaque native context and the
output cursor `iter : aom_codec_iter_t` (a raw pointer, `0` = null = the
initial state). -/
structure AV1DecoderState where
  ctx : Nat
  iter : Nat
deriving DecidableEq, Repr

/-- Embedding of `AV1Decoder::new`: the native `aom_codec_dec_init_ver` call
(result code `ret`, context `ctx` from the oracle) succeeds only on
`AOM_CODEC_OK`; the cursor starts null. -/
def AV1Decoder.new (ctx : Nat) (ret : Nat) :
    Except CodecErr AV1DecoderState :=
  if ret = AOM_CODEC_OK then Except.ok { ctx := ctx, iter := 0 }
  else Except.error ret

/-- Everything observable about one `AV1Decoder::decode` call: the returned
`Result`, the session state on return, the heap of live boxes, the box
events that occurred, and the `user_priv` pointer passed to
`aom_codec_decode`. -/
structure DecodeOutcome (T : Type) where
  result : Except CodecErr Unit
  st : AV1DecoderState
  heap : Heap T
  events : List BoxEvent
  userPrivPassed : Nat

/-- Embedding of `AV1Decoder::decode`: box the optional private value
(`Box::into_raw`, else a null pointer); call `aom_codec_decode` with the
data slice and that pointer (native result `ret`); unconditionally reset the
cursor; on `AOM_CODEC_OK` return `Ok(())`, otherwise reconstruct and drop
the box at the passed pointer and return `Err(ret)`. -/
def AV1Decoder.decode {T : Type} (st : AV1DecoderState) (heap : Heap T)
    (_data : List Nat) (priv : Option T) (ret : Nat) : DecodeOutcome T :=
  let boxed : Nat × Heap T × List BoxEvent :=
    match priv with
    | some v =>
        let (a, h) := heap.intoRaw v
        (a, h, [BoxEvent.intoRaw a])
    | none => (0, heap, [])
  let p := boxed.1
  let h1 := boxed.2.1
  let ev1 := boxed.2.2
  let st1 := { st with iter := 0 }
  if ret = AOM_CODEC_OK then
    { result := Except.ok (), st := st1, heap := h1, events := ev1,
      userPrivPassed := p }
  else
    { result := Except.error ret, st := st1, heap := h1.fromRawDrop p,
      events := ev1 ++ [BoxEvent.fromRawDrop p], userPrivPassed := p }

/-- Embedding of `AV1Decoder::flush`: `aom_codec_decode` with a null data
pointer, zero length and null private pointer (native result `ret`);
unconditionally reset the cursor; map the result code. -/
def AV1Decoder.flush (st : AV1DecoderState) (ret : Nat) :
    Except CodecErr Unit × AV1DecoderState :=
  (if ret = AOM_CODEC_OK then Except.ok () else Except.error ret,
   { st with iter := 0 })

/-- Embedding of `AV1Decoder::get_frame`: `aom_codec_get_frame` advances the
cursor (oracle `iterOut`) and yields either null (`none`) or a native image
record.  On a record: a non-null `user_priv` pointer is reclaimed with
`Box::from_raw` (the boxed value read from the heap; null yields no
attachment), then the image is marshalled by `frame_from_img` (which aborts
on an unsupported format tag). -/
def AV1Decoder.get_frame {T : Type} (st : AV1DecoderState) (heap : Heap T)
    (rec : Option AomImageT) (iterOut : Nat) (allocPlanes : List Plane) :
    Except WrapperPanic (Option (Frame × Option T) × AV1DecoderState) :=
  match rec with
  | none => Except.ok (none, { st with iter := iterOut })
  | some im =>
      let priv : Option T :=
        if im.user_priv = 0 then none else heap.contents im.user_priv
      match frame_from_img im allocPlanes with
      | Except.error e => Except.error e
      | Except.ok frame =>
          Except.ok (some (frame, priv), { st with iter := iterOut })

/-- Draining loop: repeated `get_frame` calls while the native engine yields
the given records in order (one record per call).  Collects the yielded
(frame, user data) pairs; aborts if any record's format is unsupported. -/
def drainFrames {T : Type} (st : AV1DecoderState) (heap : Heap T) :
    List AomImageT → Except WrapperPanic (List (Frame × Option T))
  | [] => Except.ok []
  | im :: rest =>
      match AV1Decoder.get_frame st heap (some im) 1 [] with
      | Except.error e => Except.error e
      | Except.ok (out, st1) =>
          match drainFrames st1 heap rest with
          | Except.error e => Except.error e
          | Except.ok tail => Except.ok (out.elim tail fun fp => fp :: tail)

/-! ### Encoder configuration and session -/

/-- Opaque native tunables struct `aom_codec_enc_cfg`; the wrapper passes it
through unmodified, so it is kept abstract. -/
abbrev AomCodecEncCfg := Nat

/-- Encoder configuration wrapper (encoder.rs `AV1EncoderConfig`). -/
structure AV1EncoderConfig where
  cfg : AomCodecEncCfg
deriving DecidableEq, Repr

/-- Embedding of `AV1EncoderConfig::new`: `aom_codec_enc_config_default`
fills the config (oracle `cfg`) and returns `ret`; only `AOM_CODEC_OK`
yields a configuration. -/
def AV1EncoderConfig.new (cfg : AomCodecEncCfg) (ret : Nat) :
    Except CodecErr AV1EncoderConfig :=
  if ret = AOM_CODEC_OK then Except.ok { cfg := cfg } else Except.error ret

/-- Encoder session state (`AV1Encoder`): native context and output cursor
(`0` = null = initial). -/
structure AV1EncoderState where
  ctx : Nat
  iter : Nat
deriving DecidableEq, Repr

/-- Embedding of `AV1Encoder::new`: `aom_codec_enc_init_ver` on the given
config (native result `ret`, context `ctx`); the cursor starts null. -/
def AV1Encoder.new (_cfg : AV1EncoderConfig) (ctx : Nat) (ret : Nat) :
    Except CodecErr AV1EncoderState :=
  if ret = AOM_CODEC_OK then Except.ok { ctx := ctx, iter := 0 }
  else Except.error ret

/-- Embedding of `AV1Encoder::control`: a single `aom_codec_control_` call
(native result `ret`); no session field is touched. -/
def AV1Encoder.control (_st : AV1EncoderState) (_id : Nat) (_val : Int)
    (ret : Nat) : Except CodecErr Unit :=
  if ret = AOM_CODEC_OK then Except.ok () else Except.error ret

/-- Embedding of `AV1Encoder::encode`: build the native descriptor with
`img_from_frame` (aborts on an unsupported format), unwrap the frame's
`pts` (aborts when absent), call `aom_codec_encode` with the descriptor,
that timestamp, duration 1 and flags 0 (native result `ret`);
unconditionally reset the cursor; map the result code. -/
def AV1Encoder.encode (st : AV1EncoderState) (frame : Frame) (ret : Nat) :
    Except WrapperPanic (Except CodecErr Unit × AV1EncoderState) :=
  match img_from_frame frame with
  | Except.error e => Except.error e
  | Except.ok _img =>
      match frame.t.pts with
      | none => Except.error WrapperPanic.unwrapNone
      | some _pts =>
          Except.ok
            (if ret = AOM_CODEC_OK then Except.ok () else Except.error ret,
             { st with iter := 0 })

/-- Embedding of `AV1Encoder::flush`: `aom_codec_encode` with a null image
pointer, timestamp 0, duration 1, flags 0 (native result `ret`);
unconditionally reset the cursor; map the result code. -/
def AV1Encoder.flush (st : AV1EncoderState) (ret : Nat) :
    Except CodecErr Unit × AV1EncoderState :=
  (if ret = AOM_CODEC_OK then Except.ok () else Except.error ret,
   { st with iter := 0 })

/-- Embedding of `AV1Encoder::get_packet`: `aom_codec_get_cx_data` advances
the cursor (oracle `iterOut`) and yields either null (`none`) or a native
record, which is marshalled by `AOMPacket::new` (aborting on an unknown
discriminant). -/
def AV1Encoder.get_packet (st : AV1EncoderState) (mem : Nat → Nat)
    (rec : Option AomCodecCxPkt) (iterOut : Nat) :
    Except WrapperPanic (Option AOMPacket × AV1EncoderState) :=
  match rec with
  | none => Except.ok (none, { st with iter := iterOut })
  | some pkt =>
      match AOMPacket.new mem pkt with
      | Except.error e => Except.error e
      | Except.ok p => Except.ok (some p, { st with iter := iterOut })

/-! ### Support definitions for the verification layer -/

/-- The error-propagation contract of one wrapper operation: success exactly
on `AOM_CODEC_OK`, otherwise the native result code is returned verbatim. -/
def resMatches {α : Type} (r : Except CodecErr α) (ret : Nat) : Prop :=
  (ret = AOM_CODEC_OK → ∃ a, r = Except.ok a) ∧
  (ret ≠ AOM_CODEC_OK → r = Except.error ret)

/-- A concrete 4×4 YUV 4:2:0 video frame used to instantiate theorems. -/
def exFrame : Frame :=
  { kind := MediaKind.video
      { pic_type := PictureType.unknown, width := 4, height := 4,
        format := Formaton.yuv420 },
    buf := [{ addr := 100, linesize := 4 }, { addr := 200, linesize := 2 },
            { addr := 300, linesize := 2 }],
    t := { pts := some 0 } }

/-- A concrete native I420 image record used to instantiate theorems. -/
def exImage : AomImageT :=
  { fmt := AOM_IMG_FMT_I420, d_w := 4, d_h := 4,
    planes := fun _ => 0, stride := fun _ => 0, user_priv := 0 }

/-- The frame above with no timestamp attached. -/
def exFrameNoPts : Frame := { exFrame with t := { pts := none } }

/-- A concrete output-record data union used to instantiate theorems. -/
def exPktData : CxPktData :=
  { frame := { buf := 0, sz := 2, pts := 77, flags := 3 },
    twopass_stats := { buf := 4, sz := 3 },
    firstpass_mb_stats := { buf := 1, sz := 1 },
    psnr := { samples := fun _ => 6, sse := fun _ => 7, psnr := fun _ => 8 },
    raw := { buf := 2, sz := 2 } }

/-! ### Helper lemmas -/

theorem u32ofUsize_small {n : Nat} (h : n < 2 ^ 32) : u32ofUsize n = n :=
  Nat.mod_eq_of_lt h

theorem i32ofUsize_small {n : Nat} (h : n < 2 ^ 31) :
    i32ofUsize n = (n : Int) := by
  have h32 : n < 2 ^ 32 := lt_trans h (by norm_num)
  simp only [i32ofUsize, Nat.mod_eq_of_lt h32]
  rw [if_pos h]

theorem populatePlanes_scalars (ps : List Plane) (img : AomImage)
    (base : Nat) :
    (populatePlanes img base ps).fmt = img.fmt ∧
    (populatePlanes img base ps).bit_depth = img.bit_depth ∧
    (populatePlanes img base ps).bps = img.bps ∧
    (populatePlanes img base ps).x_chroma_shift = img.x_chroma_shift ∧
    (populatePlanes img base ps).y_chroma_shift = img.y_chroma_shift ∧
    (populatePlanes img base ps).d_w = img.d_w ∧
    (populatePlanes img base ps).d_h = img.d_h := by
  induction ps generalizing img base with
  | nil => exact ⟨rfl, rfl, rfl, rfl, rfl, rfl, rfl⟩
  | cons p ps ih => simpa [populatePlanes, setPlane] using ih (setPlane img base p) (base + 1)

theorem populatePlanes_below (ps : List Plane) (img : AomImage)
    (base j : Nat) (hj : j < base) :
    (populatePlanes img base ps).planes j = img.planes j ∧
    (populatePlanes img base ps).stride j = img.stride j := by
  induction ps generalizing img base with
  | nil => exact ⟨rfl, rfl⟩
  | cons p ps ih =>
      have hj1 : j < base + 1 := Nat.lt_succ_of_lt hj
      have hne : j ≠ base := Nat.ne_of_lt hj
      have h := ih (setPlane img base p) (base + 1) hj1
      simpa [populatePlanes, setPlane, hne] using h

theorem populatePlanes_get (ps : List Plane) (img : AomImage) (base i : Nat)
    (h : i < ps.length) :
    (populatePlanes img base ps).planes (base + i) =
      (ps.get ⟨i, h⟩).addr ∧
    (populatePlanes img base ps).stride (base + i) =
      i32ofUsize (ps.get ⟨i, h⟩).linesize := by
  induction ps generalizing img base i with
  | nil => exact absurd h (Nat.not_lt_zero i)
  | cons p ps ih =>
      cases i with
      | zero =>
          have hb : base < base + 1 := Nat.lt_succ_self base
          have h0 := populatePlanes_below ps (setPlane img base p) (base + 1)
            base hb
          simpa [populatePlanes, setPlane] using h0
      | succ k =>
          have hk : k < ps.length := Nat.lt_of_succ_lt_succ h
          have h1 := ih (setPlane img base p) (base + 1) k hk
          have harith : base + (k + 1) = base + 1 + k := by omega
          simpa [populatePlanes, harith] using h1

theorem img_from_frame_yuv420 (frame : Frame) (v : VideoInfo)
    (hk : frame.kind = MediaKind.video v) (hf : v.format = Formaton.yuv420) :
    img_from_frame frame = Except.ok (populatePlanes
      { zeroedAomImage with
          fmt := AOM_IMG_FMT_I420, bit_depth := 8, bps := 12,
          x_chroma_shift := 1, y_chroma_shift := 1,
          d_w := u32ofUsize v.width, d_h := u32ofUsize v.height }
      0 frame.buf) := by
  simp [img_from_frame, hk, map_formaton, hf, zeroedAomImage]

theorem get_frame_i420 {T : Type} (st : AV1DecoderState) (heap : Heap T)
    (im : AomImageT) (iterOut : Nat) (ap : List Plane)
    (hfmt : im.fmt = AOM_IMG_FMT_I420) :
    AV1Decoder.get_frame st heap (some im) iterOut ap =
      Except.ok (some
        ({ kind := MediaKind.video
             { pic_type := PictureType.unknown, width := im.d_w,
               height := im.d_h, format := Formaton.yuv420 },
           buf := ap, t := { pts := none } },
         if im.user_priv = 0 then none else heap.contents im.user_priv),
        { st with iter := iterOut }) := by
  simp [AV1Decoder.get_frame, frame_from_img, hfmt]

theorem drainFrames_spec {T : Type} (records : List AomImageT)
    (st : AV1DecoderState) (heap : Heap T)
    (hfmt : ∀ im ∈ records, im.fmt = AOM_IMG_FMT_I420) :
    ∃ outs, drainFrames st heap records = Except.ok outs ∧
      outs.length = records.length ∧
      ∀ i (h : i < records.length) (h2 : i < outs.length),
        (outs.get ⟨i, h2⟩).2 =
          (if (records.get ⟨i, h⟩).user_priv = 0 then none
           else heap.contents (records.get ⟨i, h⟩).user_priv) := by
  induction records generalizing st with
  | nil =>
      refine ⟨[], rfl, rfl, ?_⟩
      intro i h
      exact absurd h (Nat.not_lt_zero i)
  | cons im rest ih =>
      have him : im.fmt = AOM_IMG_FMT_I420 := hfmt im (List.mem_cons_self im rest)
      have hrest : ∀ r ∈ rest, r.fmt = AOM_IMG_FMT_I420 :=
        fun r hr => hfmt r (List.mem_cons_of_mem im hr)
      obtain ⟨tail, htail, hlen, hget⟩ := ih { st with iter := 1 } hrest
      refine ⟨((⟨MediaKind.video ⟨PictureType.unknown, im.d_w, im.d_h,
          Formaton.yuv420⟩, [], ⟨none⟩⟩ : Frame),
        if im.user_priv = 0 then none else heap.contents im.user_priv) :: tail,
        ?_, by simpa using hlen, ?_⟩
      · rw [drainFrames, get_frame_i420 st heap im 1 [] him]
        simp only [htail]
        rfl
      · intro i h h2
        cases i with
        | zero => rfl
        | succ k =>
            have hk : k < rest.length := Nat.lt_of_succ_lt_succ h
            have hk2 : k < tail.length := Nat.lt_of_succ_lt_succ h2
            simpa using hget k hk hk2

/-! ### Claim theorems -/

/-- C1: every decode of a native image whose format tag is not the supported
planar 4:2:0 8-bit format (`AOM_IMG_FMT_I420`), and every encode of a picture
whose format is not that format (`YUV420`), is rejected with the
`UnsupportedFormat` condition, and the data is never silently reinterpreted:
a successfully marshalled decoded frame always carries the `YUV420` format. -/
theorem c1_format_gate :
    (∀ (img : AomImageT) (ap : List Plane), img.fmt ≠ AOM_IMG_FMT_I420 →
      frame_from_img img ap = Except.error WrapperPanic.unsupportedFormat) ∧
    (∀ (img : AomImageT) (ap : List Plane) (f : Frame),
      frame_from_img img ap = Except.ok f →
      img.fmt = AOM_IMG_FMT_I420 ∧
      ∃ v, f.kind = MediaKind.video v ∧ v.format = Formaton.yuv420) ∧
    (∀ (T : Type) (st : AV1DecoderState) (heap : Heap T) (im : AomImageT)
      (iterOut : Nat) (ap : List Plane), im.fmt ≠ AOM_IMG_FMT_I420 →
      AV1Decoder.get_frame st heap (some im) iterOut ap =
        Except.error WrapperPanic.unsupportedFormat) ∧
    (∀ (img : AomImage) (fmt : Formaton), fmt ≠ Formaton.yuv420 →
      map_formaton img fmt = Except.error WrapperPanic.unsupportedFormat) ∧
    (∀ (frame : Frame) (v : VideoInfo), frame.kind = MediaKind.video v →
      v.format ≠ Formaton.yuv420 →
      img_from_frame frame = Except.error WrapperPanic.unsupportedFormat) ∧
    (∀ (st : AV1EncoderState) (frame : Frame) (v : VideoInfo) (ret : Nat),
      frame.kind = MediaKind.video v → v.format ≠ Formaton.yuv420 →
      AV1Encoder.encode st frame ret =
        Except.error WrapperPanic.unsupportedFormat) := by
  have hmap : ∀ (img : AomImage) (fmt : Formaton), fmt ≠ Formaton.yuv420 →
      map_formaton img fmt = Except.error WrapperPanic.unsupportedFormat := by
    intro img fmt h
    simp [map_formaton, h]
  have himg : ∀ (frame : Frame) (v : VideoInfo),
      frame.kind = MediaKind.video v → v.format ≠ Formaton.yuv420 →
      img_from_frame frame = Except.error WrapperPanic.unsupportedFormat := by
    intro frame v hk h
    simp [img_from_frame, hk, hmap _ _ h]
  refine ⟨?_, ?_, ?_, hmap, himg, ?_⟩
  · intro img ap h
    simp [frame_from_img, h]
  · intro img ap f h
    by_cases hf : img.fmt = AOM_IMG_FMT_I420
    · refine ⟨hf, ?_⟩
      simp only [frame_from_img, hf, if_pos, Except.ok.injEq] at h
      exact ⟨_, by rw [← h], rfl⟩
    · simp [frame_from_img, hf] at h
  · intro T st heap im iterOut ap h
    simp [AV1Decoder.get_frame, frame_from_img, h]
  · intro st frame v ret hk h
    simp [AV1Encoder.encode, himg frame v hk h]

/-- C1 witness: concrete unsupported-format inputs are rejected through each
gate. -/
theorem c1_format_gate_witness :
    frame_from_img
      { fmt := 0, d_w := 2, d_h := 2, planes := fun _ => 0,
        stride := fun _ => 0, user_priv := 0 } [] =
      Except.error WrapperPanic.unsupportedFormat ∧
    map_formaton zeroedAomImage (Formaton.other 3) =
      Except.error WrapperPanic.unsupportedFormat ∧
    AV1Encoder.encode { ctx := 0, iter := 0 }
      { kind := MediaKind.video
          { pic_type := PictureType.unknown, width := 2, height := 2,
            format := Formaton.other 3 },
        buf := [], t := { pts := some 0 } } 0 =
      Except.error WrapperPanic.unsupportedFormat :=
  ⟨c1_format_gate.1 _ [] (by decide),
   c1_format_gate.2.2.2.1 _ _ (by decide),
   c1_format_gate.2.2.2.2.2 _ _ _ 0 rfl (by decide)⟩

/-- C2: after any input call — decoder decode, decoder flush, encoder encode,
encoder flush — the session's cursor field is the initial null value on
return, whether the native call succeeded or failed. -/
theorem c2_cursor_reset {T : Type} (st : AV1DecoderState) (heap : Heap T)
    (data : List Nat) (priv : Option T) (est : AV1EncoderState)
    (frame : Frame) (ret : Nat) :
    (AV1Decoder.decode st heap data priv ret).st.iter = 0 ∧
    (AV1Decoder.flush st ret).2.iter = 0 ∧
    (∀ r st2, AV1Encoder.encode est frame ret = Except.ok (r, st2) →
      st2.iter = 0) ∧
    (AV1Encoder.flush est ret).2.iter = 0 := by
  refine ⟨?_, rfl, ?_, rfl⟩
  · by_cases h : ret = AOM_CODEC_OK <;> cases priv <;>
      simp [AV1Decoder.decode, Heap.intoRaw, h]
  · intro r st2 h
    cases hi : img_from_frame frame with
    | error e => rw [AV1Encoder.encode, hi] at h; cases h
    | ok img =>
        rw [AV1Encoder.encode, hi] at h
        cases hp : frame.t.pts with
        | none => rw [hp] at h; cases h
        | some p =>
            rw [hp] at h
            have := (Except.ok.injEq _ _).mp h
            have h2 : st2 = { est with iter := 0 } := congrArg Prod.snd this |>.symm
            rw [h2]

/-- C2 witness: cursor fields are null after concrete input calls. -/
theorem c2_cursor_reset_witness :
    (AV1Decoder.decode (T := Nat) { ctx := 1, iter := 5 }
      { next := 1, contents := fun _ => none } [9] (some 7) 3).st.iter = 0 ∧
    AV1Encoder.encode { ctx := 2, iter := 5 } exFrame AOM_CODEC_OK =
      Except.ok (Except.ok (), { ctx := 2, iter := 0 }) ∧
    ({ ctx := 2, iter := 0 } : AV1EncoderState).iter = 0 := by
  refine ⟨?_, rfl, ?_⟩
  · exact (c2_cursor_reset { ctx := 1, iter := 5 }
      { next := 1, contents := fun _ => none } [9] (some 7)
      { ctx := 2, iter := 5 } exFrame 3).1
  · exact (c2_cursor_reset (T := Nat) { ctx := 1, iter := 5 }
      { next := 1, contents := fun _ => none } [9] none
      { ctx := 2, iter := 5 } exFrame AOM_CODEC_OK).2.2.1
      (Except.ok ()) { ctx := 2, iter := 0 } rfl

/-- C3: when `decode` attaches an opaque value `V` and the native call fails,
the box allocated for `V` is released before the call returns (no leak) and
the native error code is returned to the caller. -/
theorem c3_failure_releases_box {T : Type} (st : AV1DecoderState)
    (heap : Heap T) (data : List Nat) (V : T) (ret : Nat)
    (hret : ret ≠ AOM_CODEC_OK) :
    (AV1Decoder.decode st heap data (some V) ret).result = Except.error ret ∧
    (AV1Decoder.decode st heap data (some V) ret).userPrivPassed =
      heap.next ∧
    (heap.intoRaw V).2.contents heap.next = some V ∧
    (AV1Decoder.decode st heap data (some V) ret).heap.contents heap.next =
      none ∧
    (AV1Decoder.decode st heap data (some V) ret).events =
      [BoxEvent.intoRaw heap.next, BoxEvent.fromRawDrop heap.next] := by
  simp [AV1Decoder.decode, Heap.intoRaw, Heap.fromRawDrop, hret]

/-- C3 witness: a failed decode of a concrete session releases the concrete
attached value and surfaces the native code. -/
theorem c3_failure_releases_box_witness :
    (AV1Decoder.decode (T := Nat) { ctx := 1, iter := 0 }
      { next := 5, contents := fun _ => none } [9] (some 42) 8).result =
      Except.error 8 ∧
    (AV1Decoder.decode (T := Nat) { ctx := 1, iter := 0 }
      { next := 5, contents := fun _ => none } [9] (some 42) 8).heap.contents
      5 = none := by
  have h := c3_failure_releases_box { ctx := 1, iter := 0 }
    { next := 5, contents := fun _ => none } [9] 42 8 (by decide)
  exact ⟨h.1, h.2.2.2.1⟩

/-- C4: every fallible operation returns an error exactly when the native
call returns a non-OK code, carrying that code verbatim, and returns success
on an OK native result. -/
theorem c4_native_code_verbatim {T : Type} (ctx : Nat)
    (st : AV1DecoderState) (heap : Heap T) (data : List Nat)
    (priv : Option T) (cfg : AomCodecEncCfg) (ecfg : AV1EncoderConfig)
    (est : AV1EncoderState) (id : Nat) (val : Int) (frame : Frame)
    (v : VideoInfo) (ret : Nat) (hk : frame.kind = MediaKind.video v)
    (hf : v.format = Formaton.yuv420) (hp : frame.t.pts.isSome = true) :
    resMatches (AV1Decoder.new ctx ret) ret ∧
    resMatches (AV1Decoder.decode st heap data priv ret).result ret ∧
    resMatches (AV1Decoder.flush st ret).1 ret ∧
    resMatches (AV1EncoderConfig.new cfg ret) ret ∧
    resMatches (AV1Encoder.new ecfg ctx ret) ret ∧
    resMatches (AV1Encoder.control est id val ret) ret ∧
    (∃ r st2, AV1Encoder.encode est frame ret = Except.ok (r, st2) ∧
      resMatches r ret) ∧
    resMatches (AV1Encoder.flush est ret).1 ret := by
  have hif : ∀ {α : Type} (a : α),
      resMatches (if ret = AOM_CODEC_OK then Except.ok a
        else Except.error ret) ret := by
    intro α a
    constructor <;> intro h <;> simp [h]
  refine ⟨hif _, ?_, hif _, hif _, hif _, hif _, ?_, hif _⟩
  · constructor <;> intro h <;> cases priv <;>
      simp [AV1Decoder.decode, Heap.intoRaw, h]
  · obtain ⟨p, hp2⟩ := Option.isSome_iff_exists.mp hp
    have himg := img_from_frame_yuv420 frame v hk hf
    refine ⟨if ret = AOM_CODEC_OK then Except.ok () else Except.error ret,
      { est with iter := 0 }, ?_, hif _⟩
    simp [AV1Encoder.encode, himg, hp2]

/-- C4 witness: a non-OK native code 5 is carried verbatim through concrete
operations. -/
theorem c4_native_code_verbatim_witness :
    resMatches (AV1Decoder.new 3 5) 5 ∧
    (∃ r st2, AV1Encoder.encode { ctx := 1, iter := 9 } exFrame 5 =
      Except.ok (r, st2) ∧ resMatches r 5) := by
  have h := c4_native_code_verbatim (T := Nat) 3 { ctx := 1, iter := 2 }
    { next := 1, contents := fun _ => none } [] none 0 { cfg := 0 }
    { ctx := 1, iter := 9 } 2 3 exFrame
    { pic_type := PictureType.unknown, width := 4, height := 4,
      format := Formaton.yuv420 } 5 rfl rfl rfl
  exact ⟨h.1, h.2.2.2.2.2.2.1⟩

/-- C5: a drained native output record whose discriminant is not one of the
five recognized kinds makes `AOMPacket::new` fail with the distinguished
`UnknownPacketKind` condition instead of producing a tagged output value. -/
theorem c5_unknown_packet_kind (mem : Nat → Nat) (pkt : AomCodecCxPkt)
    (h0 : pkt.kind ≠ AOM_CODEC_CX_FRAME_PKT)
    (h1 : pkt.kind ≠ AOM_CODEC_STATS_PKT)
    (h2 : pkt.kind ≠ AOM_CODEC_FPMB_STATS_PKT)
    (h3 : pkt.kind ≠ AOM_CODEC_PSNR_PKT)
    (h4 : pkt.kind ≠ AOM_CODEC_CUSTOM_PKT) :
    AOMPacket.new mem pkt = Except.error WrapperPanic.unknownPacketKind := by
  simp [AOMPacket.new, h0, h1, h2, h3, h4]

/-- C5 witness: the unassigned discriminant 7 is rejected. -/
theorem c5_unknown_packet_kind_witness :
    AOMPacket.new (fun a => a) { kind := 7, data := exPktData } =
      Except.error WrapperPanic.unknownPacketKind :=
  c5_unknown_packet_kind (fun a => a) { kind := 7, data := exPktData }
    (by decide) (by decide) (by decide) (by decide) (by decide)

/-- C6: the compressed-frame discriminant yields a `Packet` whose payload is
a copy of exactly the record's `sz` bytes, whose `pts` equals the record's
`pts`, and whose key-frame flag is set exactly when the key-frame bit is set
in the record's flags; the other four discriminants map to their
corresponding tagged variants with the native bytes copied. -/
theorem c6_packet_marshalling (mem : Nat → Nat) (pkt : AomCodecCxPkt) :
    (pkt.kind = AOM_CODEC_CX_FRAME_PKT →
      ∃ p, AOMPacket.new mem pkt = Except.ok (AOMPacket.Packet p) ∧
        p.data = ((List.range pkt.data.frame.sz).map fun i =>
          mem (pkt.data.frame.buf + i)) ∧
        p.data.length = pkt.data.frame.sz ∧
        p.t.pts = some pkt.data.frame.pts ∧
        (p.is_key = true ↔
          Nat.land pkt.data.frame.flags AOM_FRAME_IS_KEY ≠ 0)) ∧
    (pkt.kind = AOM_CODEC_STATS_PKT →
      AOMPacket.new mem pkt =
        Except.ok (AOMPacket.Stats (to_buffer mem pkt.data.twopass_stats)) ∧
      (to_buffer mem pkt.data.twopass_stats).length =
        pkt.data.twopass_stats.sz) ∧
    (pkt.kind = AOM_CODEC_FPMB_STATS_PKT →
      AOMPacket.new mem pkt = Except.ok
        (AOMPacket.MBStats (to_buffer mem pkt.data.firstpass_mb_stats)) ∧
      (to_buffer mem pkt.data.firstpass_mb_stats).length =
        pkt.data.firstpass_mb_stats.sz) ∧
    (pkt.kind = AOM_CODEC_PSNR_PKT →
      AOMPacket.new mem pkt = Except.ok (AOMPacket.PSNR
        { samples := pkt.data.psnr.samples, sse := pkt.data.psnr.sse,
          psnr := pkt.data.psnr.psnr })) ∧
    (pkt.kind = AOM_CODEC_CUSTOM_PKT →
      AOMPacket.new mem pkt =
        Except.ok (AOMPacket.Custom (to_buffer mem pkt.data.raw)) ∧
      (to_buffer mem pkt.data.raw).length = pkt.data.raw.sz) := by
  refine ⟨?_, ?_, ?_, ?_, ?_⟩ <;> intro hk
  · refine ⟨⟨(List.range pkt.data.frame.sz).map fun i =>
        mem (pkt.data.frame.buf + i),
      ⟨some pkt.data.frame.pts⟩,
      Nat.land pkt.data.frame.flags AOM_FRAME_IS_KEY != 0⟩,
      ?_, rfl, by simp, rfl, by simp [bne_iff_ne]⟩
    simp [AOMPacket.new, hk, Packet.with_capacity]
  · constructor
    · simp [AOMPacket.new, hk, AOM_CODEC_STATS_PKT, AOM_CODEC_CX_FRAME_PKT]
    · simp [to_buffer]
  · constructor
    · simp [AOMPacket.new, hk, AOM_CODEC_FPMB_STATS_PKT,
        AOM_CODEC_CX_FRAME_PKT, AOM_CODEC_STATS_PKT]
    · simp [to_buffer]
  · simp [AOMPacket.new, hk, AOM_CODEC_PSNR_PKT, AOM_CODEC_CX_FRAME_PKT,
      AOM_CODEC_STATS_PKT, AOM_CODEC_FPMB_STATS_PKT]
  · constructor
    · simp [AOMPacket.new, hk, AOM_CODEC_CUSTOM_PKT, AOM_CODEC_CX_FRAME_PKT,
        AOM_CODEC_STATS_PKT, AOM_CODEC_FPMB_STATS_PKT, AOM_CODEC_PSNR_PKT]
    · simp [to_buffer]

/-- C6 witness: a concrete compressed-frame record with payload bytes 10, 11,
timestamp 77 and key-frame flag bit set marshals to exactly those fields. -/
theorem c6_packet_marshalling_witness :
    ∃ p, AOMPacket.new (fun a => a + 10)
      { kind := AOM_CODEC_CX_FRAME_PKT, data := exPktData } =
      Except.ok (AOMPacket.Packet p) ∧
      p.data = ((List.range (2 : Nat)).map fun i => (0 : Nat) + i + 10) ∧
      p.data.length = 2 ∧
      p.t.pts = some 77 ∧
      (p.is_key = true ↔ Nat.land 3 AOM_FRAME_IS_KEY ≠ 0) := by
  have h := (c6_packet_marshalling (fun a => a + 10)
    { kind := AOM_CODEC_CX_FRAME_PKT, data := exPktData }).1 rfl
  simpa [exPktData] using h

/-- C7: for a picture in the supported 4:2:0 8-bit format, the native image
descriptor handed to the native encode call carries format tag I420, bit
depth 8, bits-per-sample 12, chroma shifts 1/1, the picture's width and
height, and each plane's data pointer and stride in the plane-pointer and
stride arrays.  (Width, height and strides are within machine-integer range;
the plane count fits the fixed-size native arrays.) -/
theorem c7_descriptor_population (frame : Frame) (v : VideoInfo)
    (hk : frame.kind = MediaKind.video v) (hf : v.format = Formaton.yuv420)
    (hw : v.width < 2 ^ 32) (hh : v.height < 2 ^ 32)
    (_hc : frame.buf.length ≤ 3)
    (hls : ∀ p ∈ frame.buf, p.linesize < 2 ^ 31) :
    ∃ img, img_from_frame frame = Except.ok img ∧
      img.fmt = AOM_IMG_FMT_I420 ∧ img.bit_depth = 8 ∧ img.bps = 12 ∧
      img.x_chroma_shift = 1 ∧ img.y_chroma_shift = 1 ∧
      img.d_w = v.width ∧ img.d_h = v.height ∧
      ∀ i (h : i < frame.buf.length),
        img.planes i = (frame.buf.get ⟨i, h⟩).addr ∧
        img.stride i = ((frame.buf.get ⟨i, h⟩).linesize : Int) := by
  have himg := img_from_frame_yuv420 frame v hk hf
  have hsc := populatePlanes_scalars frame.buf
    { zeroedAomImage with
        fmt := AOM_IMG_FMT_I420, bit_depth := 8, bps := 12,
        x_chroma_shift := 1, y_chroma_shift := 1,
        d_w := u32ofUsize v.width, d_h := u32ofUsize v.height } 0
  refine ⟨_, himg, hsc.1, hsc.2.1, hsc.2.2.1, hsc.2.2.2.1, hsc.2.2.2.2.1,
    ?_, ?_, ?_⟩
  · rw [hsc.2.2.2.2.2.1]
    exact u32ofUsize_small hw
  · rw [hsc.2.2.2.2.2.2]
    exact u32ofUsize_small hh
  · intro i h
    have hg := populatePlanes_get frame.buf
      { zeroedAomImage with
          fmt := AOM_IMG_FMT_I420, bit_depth := 8, bps := 12,
          x_chroma_shift := 1, y_chroma_shift := 1,
          d_w := u32ofUsize v.width, d_h := u32ofUsize v.height } 0 i h
    rw [Nat.zero_add] at hg
    refine ⟨hg.1, ?_⟩
    rw [hg.2]
    exact i32ofUsize_small (hls _ (List.get_mem frame.buf i h))

/-- C7 witness: the concrete 4×4 YUV420 frame populates the concrete
descriptor fields and the three plane pointers and strides. -/
theorem c7_descriptor_population_witness :
    ∃ img, img_from_frame exFrame = Except.ok img ∧
      img.fmt = AOM_IMG_FMT_I420 ∧ img.bit_depth = 8 ∧ img.bps = 12 ∧
      img.x_chroma_shift = 1 ∧ img.y_chroma_shift = 1 ∧
      img.d_w = 4 ∧ img.d_h = 4 ∧
      ∀ i (h : i < exFrame.buf.length),
        img.planes i = (exFrame.buf.get ⟨i, h⟩).addr ∧
        img.stride i = ((exFrame.buf.get ⟨i, h⟩).linesize : Int) :=
  c7_descriptor_population exFrame
    { pic_type := PictureType.unknown, width := 4, height := 4,
      format := Formaton.yuv420 } rfl rfl (by decide) (by decide)
    (by decide)
    (by intro p hp
        simp only [exFrame, List.mem_cons, List.not_mem_nil, or_false] at hp
        rcases hp with h | h | h <;> rw [h] <;> decide)

/-- C8: an opaque value `V` attached to a successful decode is returned
attached to exactly one frame of the drain sequence — the one whose native
record carries the donated pointer — and every other yielded frame carries no
attached data. -/
theorem c8_user_data_round_trip {T : Type} (st : AV1DecoderState)
    (heap : Heap T) (data : List Nat) (V : T) (records : List AomImageT)
    (hnull : heap.next ≠ 0)
    (hfmt : ∀ im ∈ records, im.fmt = AOM_IMG_FMT_I420)
    (k : Nat) (hk : k < records.length)
    (hat : (records.get ⟨k, hk⟩).user_priv =
      (AV1Decoder.decode st heap data (some V) AOM_CODEC_OK).userPrivPassed)
    (hothers : ∀ j (hj : j < records.length), j ≠ k →
      (records.get ⟨j, hj⟩).user_priv = 0) :
    (AV1Decoder.decode st heap data (some V) AOM_CODEC_OK).result =
      Except.ok () ∧
    ∃ outs,
      drainFrames (AV1Decoder.decode st heap data (some V) AOM_CODEC_OK).st
        (AV1Decoder.decode st heap data (some V) AOM_CODEC_OK).heap
        records = Except.ok outs ∧
      outs.length = records.length ∧
      ∀ j (hj : j < outs.length),
        (outs.get ⟨j, hj⟩).2 = (if j = k then some V else none) := by
  have hupp : (AV1Decoder.decode st heap data (some V)
      AOM_CODEC_OK).userPrivPassed = heap.next := by
    simp [AV1Decoder.decode, Heap.intoRaw]
  have hheap : (AV1Decoder.decode st heap data (some V) AOM_CODEC_OK).heap =
      (heap.intoRaw V).2 := by
    simp [AV1Decoder.decode, Heap.intoRaw]
  have hres : (AV1Decoder.decode st heap data (some V) AOM_CODEC_OK).result =
      Except.ok () := by
    simp [AV1Decoder.decode, Heap.intoRaw]
  obtain ⟨outs, hd, hlen, hget⟩ := drainFrames_spec records
    (AV1Decoder.decode st heap data (some V) AOM_CODEC_OK).st
    (AV1Decoder.decode st heap data (some V) AOM_CODEC_OK).heap hfmt
  refine ⟨hres, outs, hd, hlen, ?_⟩
  intro j hj
  have hj2 : j < records.length := hlen ▸ hj
  have h := hget j hj2 hj
  by_cases hjk : j = k
  · subst hjk
    have hpriv : (records.get ⟨j, hj2⟩).user_priv = heap.next :=
      hat.trans hupp
    rw [h, hpriv, if_neg hnull, if_pos rfl, hheap]
    simp [Heap.intoRaw]
  · rw [h, hothers j hj2 hjk, if_pos rfl, if_neg hjk]

/-- C8 witness: a concrete value 42 donated to a concrete successful decode
comes back attached to the single record carrying the donated pointer. -/
theorem c8_user_data_round_trip_witness :
    (AV1Decoder.decode (T := Nat) { ctx := 1, iter := 3 }
      { next := 5, contents := fun _ => none } [0] (some 42)
      AOM_CODEC_OK).result = Except.ok () ∧
    ∃ outs,
      drainFrames (AV1Decoder.decode (T := Nat) { ctx := 1, iter := 3 }
          { next := 5, contents := fun _ => none } [0] (some 42)
          AOM_CODEC_OK).st
        (AV1Decoder.decode (T := Nat) { ctx := 1, iter := 3 }
          { next := 5, contents := fun _ => none } [0] (some 42)
          AOM_CODEC_OK).heap
        [{ exImage with user_priv := 5 }] = Except.ok outs ∧
      outs.length = [{ exImage with user_priv := 5 }].length ∧
      ∀ j (hj : j < outs.length),
        (outs.get ⟨j, hj⟩).2 = (if j = 0 then some 42 else none) := by
  refine c8_user_data_round_trip _ _ _ _ _ (by decide) ?_ 0 (by decide)
    ?_ ?_
  · intro im him
    simp only [List.mem_singleton] at him
    rw [him]
    rfl
  · rfl
  · intro j hj hne
    exact absurd (Nat.lt_one_iff.mp hj) hne

/-- C9: an encode call completes without aborting only if the frame's `pts`
is present; the unconditional `unwrap` makes a missing timestamp an abort,
not a handled case. -/
theorem c9_pts_required (st : AV1EncoderState) (frame : Frame) (ret : Nat) :
    (∀ out, AV1Encoder.encode st frame ret = Except.ok out →
      frame.t.pts.isSome = true) ∧
    (∀ img, img_from_frame frame = Except.ok img → frame.t.pts = none →
      AV1Encoder.encode st frame ret =
        Except.error WrapperPanic.unwrapNone) := by
  constructor
  · intro out h
    cases hp : frame.t.pts with
    | none =>
        exfalso
        cases hi : img_from_frame frame with
        | error e => simp [AV1Encoder.encode, hi] at h
        | ok img => simp [AV1Encoder.encode, hi, hp] at h
    | some p => rfl
  · intro img hi hn
    simp [AV1Encoder.encode, hi, hn]

/-- C9 witness: encoding a concrete well-formed frame with no timestamp
aborts in the `unwrap`. -/
theorem c9_pts_required_witness :
    AV1Encoder.encode { ctx := 0, iter := 0 } exFrameNoPts 0 =
      Except.error WrapperPanic.unwrapNone := by
  have h := img_from_frame_yuv420 exFrameNoPts
    { pic_type := PictureType.unknown, width := 4, height := 4,
      format := Formaton.yuv420 } rfl rfl
  exact (c9_pts_required { ctx := 0, iter := 0 } exFrameNoPts 0).2 _ h rfl

/-- C10: a decode call with no attached user data passes the null pointer to
the native call, and on native failure the error branch still reconstructs
and drops a box from that null pointer (the release is not conditioned on an
allocation having happened). -/
theorem c10_null_user_data_pointer {T : Type} (st : AV1DecoderState)
    (heap : Heap T) (data : List Nat) (ret : Nat) :
    (AV1Decoder.decode (T := T) st heap data none ret).userPrivPassed = 0 ∧
    (ret ≠ AOM_CODEC_OK →
      (AV1Decoder.decode (T := T) st heap data none ret).events =
        [BoxEvent.fromRawDrop 0] ∧
      (AV1Decoder.decode (T := T) st heap data none ret).result =
        Except.error ret) := by
  by_cases h : ret = AOM_CODEC_OK <;> simp [AV1Decoder.decode, h]

/-- C10 witness: a concrete private-data-free decode failing with native code
2 passes the null pointer and performs the from-raw release on it. -/
theorem c10_null_user_data_pointer_witness :
    (AV1Decoder.decode (T := Nat) { ctx := 1, iter := 0 }
      { next := 5, contents := fun _ => none } [3] none 2).userPrivPassed =
      0 ∧
    (AV1Decoder.decode (T := Nat) { ctx := 1, iter := 0 }
      { next := 5, contents := fun _ => none } [3] none 2).events =
      [BoxEvent.fromRawDrop 0] := by
  have h := c10_null_user_data_pointer (T := Nat) { ctx := 1, iter := 0 }
    { next := 5, contents := fun _ => none } [3] 2
  exact ⟨h.1, (h.2 (by decide)).1⟩

end AomRs
